import Mathlib

/-!
Shallow embedding of the Metrica event-data parser of `databallpy`
(`databallpy/data_parsers/event_data_parsers/metrica_event_data_parser.py`)
together with the `DribbleEvent` value object
(`databallpy/events/dribble_event.py`).

JSON numbers are modelled as `Rat`, pandas null as `Option`, and the
raising of a Python exception as `Except.error` (for dictionary lookups)
or `Option.none` (for out-of-range list indexing).
-/

namespace Databallpy

/-- Modelled from the spec: the reserved sentinel integer `MISSING_INT`
from `databallpy.utils.constants` (the module is not part of the sources
here); the library reserves the nonzero value `-999`. -/
def MISSING_INT : Int := -999

/-- Modelled from the spec: the integer-coercion helper
`databallpy.utils.utils._to_int` (module not part of the sources here);
a value that cannot be read as an integer falls back to the reserved
sentinel integer. -/
def toIntOr (s : String) : Int :=
  (s.toInt?).getD MISSING_INT

/-- Python `str.lower()` as the parser uses it on vendor event labels
(character-wise ASCII lowercasing). -/
def strLower (s : String) : String := String.mk (s.data.map Char.toLower)

/-- JSON values, as far as the parser inspects them. -/
inductive Json where
  | null : Json
  | str (s : String) : Json
  | num (q : Rat) : Json
  | boolean (b : Bool) : Json
  | arr (elems : List Json) : Json
  | obj (fields : List (String × Json)) : Json

/-- Dictionary lookup `j[key]`; a missing key or a non-object receiver is
a Python `KeyError`/`TypeError`, modelled as `Except.error`. -/
def Json.getField : Json → String → Except String Json
  | .obj fields, key =>
      match fields.find? (fun p => p.1 == key) with
      | some p => .ok p.2
      | none => .error ("key not found: " ++ key)
  | _, key => .error ("key not found: " ++ key)

/-- Read a JSON value as a string. -/
def Json.getStr : Json → Except String String
  | .str s => .ok s
  | _ => .error "expected a string"

/-- Read a JSON value as a number. -/
def Json.getNum : Json → Except String Rat
  | .num q => .ok q
  | _ => .error "expected a number"

/-- Read a JSON value as an array. -/
def Json.getArr : Json → Except String (List Json)
  | .arr elems => .ok elems
  | _ => .error "expected an array"

/-- Whether an `Except` is in the error state. -/
def isError {α : Type} : Except String α → Bool
  | .error _ => true
  | .ok _ => false

/-- The `subtypes` field of a shot record: the source branches on
`isinstance(event["subtypes"], list)`, so it is either a list of objects
(kept as their `name` fields) or a single object (kept as its `name`). -/
inductive SubTypes where
  | objList (names : List String) : SubTypes
  | objSingle (name : String) : SubTypes
deriving DecidableEq

/-- One raw vendor event record, holding exactly the fields
`_get_event_data` reads from each element of `events_dict["data"]`.
The `subtypes` field is only ever read for shot records; for other
records we store an empty list. -/
structure RawEvent where
  index : Rat
  typeId : Rat
  typeName : String
  period : Rat
  startTime : Rat
  startFrame : Rat
  startX : Rat
  startY : Rat
  endX : Rat
  endY : Rat
  fromId : String
  fromName : String
  teamId : Rat
  toPlayer : Option (String × String)
  subtypes : SubTypes
deriving DecidableEq

/-- One row of the event table built by `_get_event_data` (one entry of
each list of `result_dict`).  The `datetime` column does not exist until
`load_metrica_event_data` adds it, hence the `Option`. -/
structure EventRow where
  event_id : Rat
  type_id : Rat
  databallpy_event : Option String
  period_id : Rat
  minutes : Int
  seconds : Rat
  player_id : Int
  player_name : String
  team_id : Rat
  outcome : Int
  start_x : Rat
  start_y : Rat
  to_player_id : Int
  to_player_name : Option String
  end_x : Rat
  end_y : Rat
  td_frame : Rat
  metrica_event : String
  datetime : Option Rat
deriving DecidableEq

/-- The fixed lookup table `metrica_databallpy_map` of the source. -/
def metrica_databallpy_map (s : String) : Option String :=
  if s = "pass" then some "pass"
  else if s = "carry" then some "dribble"
  else if s = "shot" then some "shot"
  else none

/-- The list `in_possession_events` of the source. -/
def in_possession_events : List String :=
  ["pass", "carry", "recovery", "shot"]

/-- The list `out_of_possession_events` of the source. -/
def out_of_possession_events : List String :=
  ["fault received", "ball out", "ball lost"]

/-- Does the current record ask for the outcome of the next one
(`if event_name in ["pass", "carry"]: check_outcome_last_event = True`)? -/
def isPassCarry (ev : RawEvent) : Bool :=
  decide (strLower ev.typeName ∈ (["pass", "carry"] : List String))

/-- Outcome written into the previous pass/carry row once the following
record `ev` is seen (`result_dict["outcome"][-1] = 0` when the following
record is an out-of-possession event of the same team or an
in-possession event of the other team, else `1`). -/
def resolvedOutcome (prevTeam : Rat) (ev : RawEvent) : Int :=
  if (strLower ev.typeName ∈ out_of_possession_events ∧ prevTeam = ev.teamId)
      ∨ (strLower ev.typeName ∈ in_possession_events ∧ prevTeam ≠ ev.teamId)
  then 0 else 1

/-- Outcome of a shot record from its `subtypes`: `1` iff some attached
sub-type has `name == "GOAL"` (list branch loops with early break, single
branch compares directly), else `0`. -/
def shotOutcomeOf : SubTypes → Int
  | .objList names => if "GOAL" ∈ names then 1 else 0
  | .objSingle name => if name = "GOAL" then 1 else 0

/-- Names of all attached sub-types, in either shape. -/
def subNames : SubTypes → List String
  | .objList names => names
  | .objSingle name => [name]

/-- The row appended for one record by the loop body of
`_get_event_data` (before any later look-ahead fix-up of its outcome):
`minutes = _to_int(time // 60)`, `seconds = _to_float(time % 60)`,
`player_id = _to_int(event["from"]["id"][1:])`, shot outcome from
`subtypes`, non-shots get `MISSING_INT`, a null `to` gives the sentinel
id and a `None` name, and `metrica_event` is the lowercased type name.
The `databallpy_event` column is filled only after the loop. -/
def buildRow (ev : RawEvent) : EventRow :=
  let event_name := strLower ev.typeName
  { event_id := ev.index
    type_id := ev.typeId
    databallpy_event := none
    period_id := ev.period
    minutes := Rat.floor (ev.startTime / 60)
    seconds := ev.startTime - 60 * (Rat.floor (ev.startTime / 60) : Int)
    player_id := toIntOr (ev.fromId.drop 1)
    player_name := ev.fromName
    team_id := ev.teamId
    outcome := if event_name = "shot" then shotOutcomeOf ev.subtypes else MISSING_INT
    start_x := ev.startX
    start_y := ev.startY
    to_player_id :=
      match ev.toPlayer with
      | some p => toIntOr (p.1.drop 1)
      | none => MISSING_INT
    to_player_name := ev.toPlayer.map (fun p => p.2)
    end_x := ev.endX
    end_y := ev.endY
    td_frame := ev.startFrame
    metrica_event := event_name
    datetime := none }

/-- The loop of `_get_event_data` over `events_dict["data"]`: `acc` holds
the rows built so far in reverse, `checkLast` is the
`check_outcome_last_event` flag.  When the flag is set, the outcome of the
most recent row (`result_dict["outcome"][-1]`) is overwritten using its
team (`result_dict["team_id"][-1]`) and the current record. -/
def processEvents : List RawEvent → Bool → List EventRow → List EventRow
  | [], _, acc => acc.reverse
  | ev :: rest, checkLast, acc =>
      let acc' :=
        if checkLast then
          match acc with
          | prev :: tail => { prev with outcome := resolvedOutcome prev.team_id ev } :: tail
          | [] => []
        else acc
      processEvents rest (isPassCarry ev) (buildRow ev :: acc')

/-- After the loop, `_get_event_data` maps the `metrica_event` column
through `metrica_databallpy_map` (pandas `.map` plus
`.replace([np.nan], [None])`, i.e. unmapped labels become null). -/
def assignDataballpyEvent (r : EventRow) : EventRow :=
  { r with databallpy_event := metrica_databallpy_map r.metrica_event }

/-- The event table `_get_event_data` returns for a list of records. -/
def getEventDataRows (evs : List RawEvent) : List EventRow :=
  (processEvents evs false []).map assignDataballpyEvent

/-- Parse one element of `events_dict["data"]` into a `RawEvent`,
performing the dictionary lookups the loop body performs (in the source's
access order); any absent key is a lookup failure.  `subtypes` is only
looked up for shot records. -/
def parseRawEvent (j : Json) : Except String RawEvent := do
  let index ← (← j.getField "index").getNum
  let ty ← j.getField "type"
  let typeId ← (← ty.getField "id").getNum
  let typeName ← (← ty.getField "name").getStr
  let period ← (← j.getField "period").getNum
  let start ← j.getField "start"
  let startTime ← (← start.getField "time").getNum
  let fromObj ← j.getField "from"
  let fromId ← (← fromObj.getField "id").getStr
  let fromName ← (← fromObj.getField "name").getStr
  let subtypes ←
    if strLower typeName == "shot" then
      match ← j.getField "subtypes" with
      | .arr subs => do
          let names ← subs.mapM (fun s => do (← s.getField "name").getStr)
          pure (SubTypes.objList names)
      | .obj fields => do
          let name ← (← (Json.obj fields).getField "name").getStr
          pure (SubTypes.objSingle name)
      | _ => .error "subtypes is neither a list nor an object"
    else
      pure (SubTypes.objList [])
  let team ← j.getField "team"
  let teamId ← (← team.getField "id").getNum
  let startX ← (← start.getField "x").getNum
  let startY ← (← start.getField "y").getNum
  let toPlayer ←
    match ← j.getField "to" with
    | .null => pure (none : Option (String × String))
    | toObj => do
        let toId ← (← toObj.getField "id").getStr
        let toName ← (← toObj.getField "name").getStr
        pure (some (toId, toName))
  let endObj ← j.getField "end"
  let endX ← (← endObj.getField "x").getNum
  let endY ← (← endObj.getField "y").getNum
  let startFrame ← (← start.getField "frame").getNum
  pure
    { index := index
      typeId := typeId
      typeName := typeName
      period := period
      startTime := startTime
      startFrame := startFrame
      startX := startX
      startY := startY
      endX := endX
      endY := endY
      fromId := fromId
      fromName := fromName
      teamId := teamId
      toPlayer := toPlayer
      subtypes := subtypes }

/-- The whole of `_get_event_data` on an already-decoded JSON document:
read `events_dict["data"]`, parse every record, run the loop, then fill
the `databallpy_event` column. -/
def getEventData (j : Json) : Except String (List EventRow) := do
  let data ← (← j.getField "data").getArr
  let evs ← data.mapM parseRawEvent
  pure (getEventDataRows evs)

/-- Proof device: the pending outcome of a pass/carry row of team `team`,
resolved by the head of the remaining stream; an empty remainder leaves
the outcome as it stands. -/
def headResolve (team : Rat) : List RawEvent → Int → Int
  | [], o => o
  | ev :: _, _ => resolvedOutcome team ev

/-- Proof device: the final row for record `e` given the record that
follows it (if any): a pass/carry row has its outcome resolved by the
next record, every other row keeps the outcome `buildRow` gave it. -/
def specRow (e : RawEvent) (onext : Option RawEvent) : EventRow :=
  let b := buildRow e
  if isPassCarry e then
    match onext with
    | none => b
    | some nxt => { b with outcome := resolvedOutcome b.team_id nxt }
  else b

/-- Proof device: structural-recursion restatement of the loop of
`_get_event_data`, resolving each row against its successor directly. -/
def rowsSpec : List RawEvent → List EventRow
  | [] => []
  | e :: rest => specRow e rest.head? :: rowsSpec rest

/-- Coordinate rescaling applied to each `_x`/`_y` column of the event
table: `value * dimension - dimension / 2`. -/
def rescale (dim v : Rat) : Rat := v * dim - dim / 2

/-- Inverse of `rescale dim` (for `dim ≠ 0`). -/
def unrescale (dim w : Rat) : Rat := (w + dim / 2) / dim

/-- The rescaling loops of `load_metrica_event_data`: every column whose
name contains `_x` (namely `start_x` and `end_x`) is rescaled with the
pitch length, every column whose name contains `_y` (`start_y`, `end_y`)
with the pitch width. -/
def rescaleRow (pitchDimensions : Rat × Rat) (r : EventRow) : EventRow :=
  { r with
    start_x := rescale pitchDimensions.1 r.start_x
    end_x := rescale pitchDimensions.1 r.end_x
    start_y := rescale pitchDimensions.2 r.start_y
    end_y := rescale pitchDimensions.2 r.end_y }

/-- Modelled from the spec: one row of `metadata.periods_frames` (the
`Metadata` class and the metadata parser are not part of the sources
here); `start_datetime_ed` is an absolute UTC timestamp in seconds. -/
structure PeriodRow where
  period_id : Int
  start_frame : Rat
  start_datetime_ed : Rat
deriving DecidableEq

/-- Modelled from the spec: the metadata object, restricted to the fields
`load_metrica_event_data` and the typed-event builders read. -/
structure Metadata where
  pitch_dimensions : Rat × Rat
  periods_frames : List PeriodRow
  frame_rate : Rat
  home_team_id : Rat
  away_team_id : Rat
deriving DecidableEq

/-- Datetime assigned to one event row by `load_metrica_event_data`:
the first `period_id == 1` row of `periods_frames` supplies `first_frame`
and `start_time` (`.iloc[0]`, so `none` when no such row exists), and the
row's timestamp is that start time plus
`timedelta(milliseconds=(td_frame - first_frame) / frame_rate * 1000)`. -/
def eventDatetime (md : Metadata) (r : EventRow) : Option Rat :=
  match md.periods_frames.find? (fun p => p.period_id == 1) with
  | none => none
  | some p =>
      some (p.start_datetime_ed
        + (r.td_frame - p.start_frame) / md.frame_rate * 1000 / 1000)

/-- Fill in the `datetime` column for one row. -/
def addDatetimeRow (md : Metadata) (r : EventRow) : EventRow :=
  { r with datetime := eventDatetime md r }

/-- Python list indexing `l[i]`: a negative index counts from the end,
and an index out of range raises (modelled as `none`). -/
def pyListGet {α : Type} (l : List α) (i : Int) : Option α :=
  let j := if i < 0 then (l.length : Int) + i else i
  if 0 ≤ j then l.get? j.toNat else none

/-- Python truthiness of an integer (`bool(i)`). -/
def pyBool (i : Int) : Bool := i != 0

/-- The `ShotEvent` value object, restricted to the fields the parser
fills (`y_target`/`z_target` are `np.nan`, modelled as `none`). -/
structure ShotEvent where
  event_id : Rat
  period_id : Rat
  minutes : Int
  seconds : Rat
  datetime : Option Rat
  start_x : Rat
  start_y : Rat
  team_id : Rat
  pitch_size : Rat × Rat
  team_side : String
  _xt : Rat
  player_id : Int
  shot_outcome : String
  y_target : Option Rat
  z_target : Option Rat
  body_part : Option String
  type_of_play : Option String
  first_touch : Option Bool
  created_oppertunity : Option String
  related_event_id : Int
deriving DecidableEq

/-- The `PassEvent` value object, restricted to the fields the parser
fills. -/
structure PassEvent where
  event_id : Rat
  period_id : Rat
  minutes : Int
  seconds : Rat
  datetime : Option Rat
  start_x : Rat
  start_y : Rat
  team_id : Rat
  pitch_size : Rat × Rat
  team_side : String
  _xt : Rat
  player_id : Int
  outcome : String
  end_x : Rat
  end_y : Rat
  pass_type : String
  set_piece : String
deriving DecidableEq

/-- The `DribbleEvent` value object of `databallpy/events/dribble_event.py`:
base on-ball-event fields plus `player_id`, `related_event_id`,
`duel_type`, `outcome : bool` and `has_opponent`. -/
structure DribbleEvent where
  event_id : Rat
  period_id : Rat
  minutes : Int
  seconds : Rat
  datetime : Option Rat
  start_x : Rat
  start_y : Rat
  team_id : Rat
  pitch_size : Rat × Rat
  team_side : String
  _xt : Rat
  player_id : Int
  related_event_id : Int
  duel_type : Option String
  outcome : Bool
  has_opponent : Bool
deriving DecidableEq

/-- The source's `_get_shot_event`: `shot_outcome = ["miss", "goal"][row.outcome]`
(an out-of-range index raises, modelled as `none`), every other field is
copied from the row or set to the documented constant. -/
def getShotEvent (pitchDimensions : Rat × Rat) (homeTeamId : Rat)
    (r : EventRow) : Option ShotEvent :=
  match pyListGet ["miss", "goal"] r.outcome with
  | none => none
  | some so =>
      some
        { event_id := r.event_id
          period_id := r.period_id
          minutes := r.minutes
          seconds := r.seconds
          datetime := r.datetime
          start_x := r.start_x
          start_y := r.start_y
          team_id := r.team_id
          pitch_size := pitchDimensions
          team_side := if r.team_id == homeTeamId then "home" else "away"
          _xt := -1
          player_id := r.player_id
          shot_outcome := so
          y_target := none
          z_target := none
          body_part := none
          type_of_play := none
          first_touch := none
          created_oppertunity := none
          related_event_id := MISSING_INT }

/-- The source's `_get_pass_event`:
`outcome = ["unsuccessful", "successful"][row.outcome]` (the
`pd.isnull(row.outcome)` guard is vacuous — the `outcome` column is an
integer column, never null — so only the indexing branch is live; an
out-of-range index raises, modelled as `none`). -/
def getPassEvent (pitchDimensions : Rat × Rat) (homeTeamId : Rat)
    (r : EventRow) : Option PassEvent :=
  match pyListGet ["unsuccessful", "successful"] r.outcome with
  | none => none
  | some oc =>
      some
        { event_id := r.event_id
          period_id := r.period_id
          minutes := r.minutes
          seconds := r.seconds
          datetime := r.datetime
          start_x := r.start_x
          start_y := r.start_y
          team_id := r.team_id
          pitch_size := pitchDimensions
          team_side := if r.team_id == homeTeamId then "home" else "away"
          _xt := -1
          player_id := r.player_id
          outcome := oc
          end_x := r.end_x
          end_y := r.end_y
          pass_type := "not_specified"
          set_piece := "unspecified_set_piece" }

/-- The source's `_get_dribble_event`: `outcome=bool(row.outcome)`,
`duel_type=None`, `related_event_id=MISSING_INT`, `has_opponent=False`. -/
def getDribbleEvent (pitchDimensions : Rat × Rat) (homeTeamId : Rat)
    (r : EventRow) : DribbleEvent :=
  { event_id := r.event_id
    period_id := r.period_id
    minutes := r.minutes
    seconds := r.seconds
    datetime := r.datetime
    start_x := r.start_x
    start_y := r.start_y
    team_id := r.team_id
    pitch_size := pitchDimensions
    team_side := if r.team_id == homeTeamId then "home" else "away"
    _xt := -1
    player_id := r.player_id
    related_event_id := MISSING_INT
    duel_type := none
    outcome := pyBool r.outcome
    has_opponent := false }

/-- The runtime type of the `event_data_loc` argument of
`load_metrica_event_data`: a Python `str`, an in-memory file object
(`io.StringIO`), or any other object. -/
inductive LoadInput where
  | str (s : String) : LoadInput
  | stringIO (s : String) : LoadInput
  | otherObj : LoadInput
deriving DecidableEq

/-- Result of the input validation at the top of
`load_metrica_event_data`: proceed, raise `FileNotFoundError`, or raise
`TypeError`. -/
inductive LoadCheck where
  | ok : LoadCheck
  | fileNotFound (msg : String) : LoadCheck
  | typeError (msg : String) : LoadCheck
deriving DecidableEq

/-- Whether a string contains an opening brace (Python
`"\x7b" in event_data_loc`). -/
def hasBrace (s : String) : Bool := s.data.any (fun c => c == '\x7b')

/-- The input validation of `load_metrica_event_data` (lines 52-73):
a brace-free `str` is treated as a path and both files must exist in the
file system `fs`; a `str` containing a brace is accepted as the in-memory
JSON document itself; every non-`str` input (including a file object)
raises a `TypeError`. -/
def checkEventDataLoc (fs : List String) (eventDataLoc : LoadInput)
    (metadataLoc : String) : LoadCheck :=
  match eventDataLoc with
  | .str s =>
      if hasBrace s = false then
        if s ∉ fs then
          .fileNotFound ("Could not find " ++ s)
        else if metadataLoc ∉ fs then
          .fileNotFound ("Could not find " ++ metadataLoc)
        else .ok
      else .ok
  | _ =>
      .typeError "tracking_data_loc must be either a str or a StringIO object"

/-- Sample record: a pass of team `100`. -/
def evPass1 : RawEvent :=
  { index := 1
    typeId := 1
    typeName := "PASS"
    period := 1
    startTime := 65
    startFrame := 100
    startX := 1/2
    startY := 1/2
    endX := 3/5
    endY := 2/5
    fromId := "P1"
    fromName := "Alice"
    teamId := 100
    toPlayer := some ("P2", "Bob")
    subtypes := SubTypes.objList [] }

/-- Sample record: the same team losing the ball. -/
def evBallLost1 : RawEvent :=
  { evPass1 with index := 2, typeName := "BALL LOST", toPlayer := none }

/-- Sample record: a carry of team `100`. -/
def evCarry1 : RawEvent :=
  { evPass1 with index := 3, typeName := "CARRY" }

/-- Sample record: a shot with a `GOAL` sub-type. -/
def evShotGoal : RawEvent :=
  { evPass1 with
    index := 4
    typeName := "SHOT"
    subtypes := SubTypes.objList ["HEAD", "GOAL"] }

/-- Sample record: a shot without a `GOAL` sub-type. -/
def evShotMiss : RawEvent :=
  { evPass1 with
    index := 5
    typeName := "SHOT"
    subtypes := SubTypes.objSingle "OFF TARGET" }

/-- Sample record: a recovery by the other team `200`. -/
def evRecovery1 : RawEvent :=
  { evPass1 with index := 6, typeName := "RECOVERY", teamId := 200 }

/-- Sample event-table row with a resolved, successful outcome. -/
def sampleRow : EventRow :=
  { assignDataballpyEvent (buildRow evPass1) with
    outcome := 1
    datetime := some 1234 }

/-- Sample metadata. -/
def sampleMetadata : Metadata :=
  { pitch_dimensions := (105, 68)
    periods_frames :=
      [ { period_id := 1, start_frame := 50, start_datetime_ed := 1000 },
        { period_id := 2, start_frame := 90000, start_datetime_ed := 5000 } ]
    frame_rate := 25
    home_team_id := 100
    away_team_id := 200 }

/-! ### Equivalence of the stateful loop with the look-ahead recursion -/

/-- A set `check_outcome_last_event` flag resolves the newest row against
the next record (or leaves it alone when the stream ends). -/
theorem processEvents_true_cons (evs : List RawEvent) (r : EventRow)
    (tail : List EventRow) :
    processEvents evs true (r :: tail) =
      processEvents evs false
        ({ r with outcome := headResolve r.team_id evs r.outcome } :: tail) := by
  cases evs with
  | nil => rfl
  | cons e rest => rfl

/-- The loop of `_get_event_data` with a clear flag computes `rowsSpec`
appended to the reversed accumulator. -/
theorem processEvents_false_eq (evs : List RawEvent) :
    ∀ acc : List EventRow,
      processEvents evs false acc = acc.reverse ++ rowsSpec evs := by
  induction evs with
  | nil => intro acc; simp [processEvents, rowsSpec]
  | cons e rest ih =>
      intro acc
      show processEvents rest (isPassCarry e) (buildRow e :: acc)
        = acc.reverse ++ rowsSpec (e :: rest)
      cases hpc : isPassCarry e with
      | true =>
          rw [processEvents_true_cons, ih, rowsSpec, List.reverse_cons,
            List.append_assoc, List.singleton_append]
          congr 2
          cases rest with
          | nil => simp [headResolve, specRow, hpc]
          | cons nxt rest' => simp [headResolve, specRow, hpc]
      | false =>
          rw [ih, rowsSpec, List.reverse_cons, List.append_assoc,
            List.singleton_append]
          congr 2
          simp [specRow, hpc]

/-- The event table equals the look-ahead recursion with the
`databallpy_event` column filled in. -/
theorem getEventDataRows_eq_rowsSpec (evs : List RawEvent) :
    getEventDataRows evs = (rowsSpec evs).map assignDataballpyEvent := by
  unfold getEventDataRows
  rw [processEvents_false_eq evs []]
  rfl

/-- Row `i` of `rowsSpec` is record `i` resolved against record `i+1`. -/
theorem rowsSpec_get? (evs : List RawEvent) (i : Nat) (e : RawEvent)
    (h : evs.get? i = some e) :
    (rowsSpec evs).get? i = some (specRow e (evs.get? (i + 1))) := by
  induction evs generalizing i with
  | nil => simp [List.get?] at h
  | cons a rest ih =>
      cases i with
      | zero =>
          rw [List.get?_cons_zero, Option.some_inj] at h
          subst h
          show some (specRow a rest.head?) = some (specRow a (rest.get? 0))
          cases rest <;> rfl
      | succ n =>
          rw [List.get?_cons_succ] at h
          show (rowsSpec rest).get? n = some (specRow e (rest.get? (n + 1)))
          exact ih n h

/-! ### Claims -/

/-- C1: a pass or carry record followed by another record gets outcome 0
exactly when that following record is an out-of-possession event
(`fault received`, `ball out`, `ball lost`) of the same team or an
in-possession event (`pass`, `carry`, `recovery`, `shot`) of a different
team, and outcome 1 in every other case. -/
theorem c1_pass_carry_outcome (evs : List RawEvent) (i : Nat)
    (e nxt : RawEvent) (he : evs.get? i = some e)
    (hn : evs.get? (i + 1) = some nxt) (hpc : isPassCarry e = true) :
    ∃ r, (getEventDataRows evs).get? i = some r ∧
      r.outcome =
        if (strLower nxt.typeName ∈ out_of_possession_events ∧ e.teamId = nxt.teamId)
            ∨ (strLower nxt.typeName ∈ in_possession_events ∧ e.teamId ≠ nxt.teamId)
        then 0 else 1 := by
  have hs := rowsSpec_get? evs i e he
  rw [getEventDataRows_eq_rowsSpec, List.get?_map, hs, hn]
  refine ⟨_, rfl, ?_⟩
  simp only [specRow, hpc, if_true, assignDataballpyEvent]
  rfl

/-- C1 witness: a pass of team 100 followed by a `BALL LOST` record of
team 100 is marked unsuccessful. -/
theorem c1_pass_carry_outcome_witness :
    isPassCarry evPass1 = true ∧
    ∃ r, (getEventDataRows [evPass1, evBallLost1]).get? 0 = some r ∧
      r.outcome = 0 := by
  refine ⟨rfl, ?_⟩
  have h := c1_pass_carry_outcome [evPass1, evBallLost1] 0 evPass1 evBallLost1
    rfl rfl rfl
  rwa [if_pos (Or.inl ⟨by decide, by decide⟩)] at h

/-- C2: a shot record's outcome is 1 exactly when some attached sub-type
(list or single object) is named `GOAL`, and 0 otherwise. -/
theorem c2_shot_outcome (evs : List RawEvent) (i : Nat) (e : RawEvent)
    (he : evs.get? i = some e) (hsh : strLower e.typeName = "shot") :
    ∃ r, (getEventDataRows evs).get? i = some r ∧
      (r.outcome = 1 ↔ "GOAL" ∈ subNames e.subtypes) ∧
      ("GOAL" ∉ subNames e.subtypes → r.outcome = 0) := by
  have hs := rowsSpec_get? evs i e he
  rw [getEventDataRows_eq_rowsSpec, List.get?_map, hs]
  refine ⟨_, rfl, ?_⟩
  have hpc : isPassCarry e = false := by
    simp [isPassCarry, hsh]
  simp only [specRow, hpc, Bool.false_eq_true, if_false, assignDataballpyEvent,
    buildRow, hsh, if_true, if_pos rfl]
  cases hst : e.subtypes with
  | objList names =>
      by_cases hg : "GOAL" ∈ names <;>
        simp [shotOutcomeOf, subNames, hg]
  | objSingle name =>
      by_cases hg : name = "GOAL" <;>
        simp [shotOutcomeOf, subNames, hg, eq_comm]

/-- C2 witness: a shot with a `GOAL` sub-type gets outcome 1, a shot
without one gets outcome 0. -/
theorem c2_shot_outcome_witness :
    (∃ r, (getEventDataRows [evShotGoal]).get? 0 = some r ∧ r.outcome = 1) ∧
    (∃ r, (getEventDataRows [evShotMiss]).get? 0 = some r ∧ r.outcome = 0) := by
  constructor
  · obtain ⟨r, h1, h2, -⟩ := c2_shot_outcome [evShotGoal] 0 evShotGoal rfl rfl
    exact ⟨r, h1, h2.mpr (by decide)⟩
  · obtain ⟨r, h1, -, h3⟩ := c2_shot_outcome [evShotMiss] 0 evShotMiss rfl rfl
    exact ⟨r, h1, h3 (by decide)⟩

/-- C6: every row's `databallpy_event` is the image of its (lowercased)
vendor label under the fixed lookup table, which maps `pass` to `pass`,
`carry` to `dribble`, `shot` to `shot` and everything else to null. -/
theorem c6_databallpy_event_map :
    (∀ evs : List RawEvent, ∀ r ∈ getEventDataRows evs,
        r.databallpy_event = metrica_databallpy_map r.metrica_event)
    ∧ metrica_databallpy_map "pass" = some "pass"
    ∧ metrica_databallpy_map "carry" = some "dribble"
    ∧ metrica_databallpy_map "shot" = some "shot"
    ∧ (∀ s : String, s ≠ "pass" → s ≠ "carry" → s ≠ "shot" →
        metrica_databallpy_map s = none) := by
  refine ⟨?_, rfl, rfl, rfl, ?_⟩
  · intro evs r hr
    unfold getEventDataRows at hr
    rw [List.mem_map] at hr
    obtain ⟨r', -, rfl⟩ := hr
    rfl
  · intro s h1 h2 h3
    simp [metrica_databallpy_map, h1, h2, h3]

/-- C6 witness: the lookup table on the three mapped labels, an unmapped
label, and a concrete processed record. -/
theorem c6_databallpy_event_map_witness :
    metrica_databallpy_map "ball out" = none ∧
    ∃ r, (getEventDataRows [evCarry1]) = [r] ∧
      r.databallpy_event = metrica_databallpy_map r.metrica_event := by
  refine ⟨c6_databallpy_event_map.2.2.2.2 "ball out" (by decide) (by decide)
    (by decide), ⟨_, rfl, ?_⟩⟩
  exact c6_databallpy_event_map.1 [evCarry1] _ (by exact List.mem_singleton.mpr rfl)

/-- C9: when the very last record of the stream is a pass or carry, its
outcome is never resolved and keeps the sentinel `MISSING_INT`. -/
theorem c9_last_pass_carry_unresolved (evs : List RawEvent) (e : RawEvent)
    (he : evs.get? (evs.length - 1) = some e) (hpc : isPassCarry e = true) :
    ∃ r, (getEventDataRows evs).get? (evs.length - 1) = some r ∧
      r.outcome = MISSING_INT := by
  have hs := rowsSpec_get? evs (evs.length - 1) e he
  have hlen : 0 < evs.length := by
    cases evs with
    | nil => simp [List.get?] at he
    | cons a rest => exact Nat.succ_pos _
  have hnone : evs.get? (evs.length - 1 + 1) = none := by
    rw [Nat.sub_add_cancel hlen]
    exact List.get?_eq_none.mpr (Nat.le_refl _)
  rw [getEventDataRows_eq_rowsSpec, List.get?_map, hs, hnone]
  refine ⟨_, rfl, ?_⟩
  have hname : strLower e.typeName = "pass" ∨ strLower e.typeName = "carry" := by
    have := of_decide_eq_true hpc
    simpa using this
  have hns : ¬ strLower e.typeName = "shot" := by
    rcases hname with h | h <;> rw [h] <;> decide
  simp [specRow, assignDataballpyEvent, buildRow, hns, hpc]

/-- C9 witness: a stream ending in a carry leaves that carry's outcome at
the sentinel. -/
theorem c9_last_pass_carry_unresolved_witness :
    ∃ r, (getEventDataRows [evPass1, evCarry1]).get?
        ([evPass1, evCarry1].length - 1) = some r ∧
      r.outcome = MISSING_INT :=
  c9_last_pass_carry_unresolved [evPass1, evCarry1] evCarry1 rfl rfl

/-- C3: the coordinate rescaling of `load_metrica_event_data` applies
`v * dimension - dimension / 2` to every `_x` column (pitch length) and
every `_y` column (pitch width); for nonzero dimensions the map is affine
and invertible, so every original value is recoverable. -/
theorem c3_rescale_affine_invertible (L W : Rat) (hL : L ≠ 0) (hW : W ≠ 0) :
    (∃ a b : Rat, a ≠ 0 ∧ ∀ v : Rat, rescale L v = a * v + b)
    ∧ (∀ r : EventRow,
        (rescaleRow (L, W) r).start_x = r.start_x * L - L / 2 ∧
        (rescaleRow (L, W) r).end_x = r.end_x * L - L / 2 ∧
        (rescaleRow (L, W) r).start_y = r.start_y * W - W / 2 ∧
        (rescaleRow (L, W) r).end_y = r.end_y * W - W / 2)
    ∧ (∀ v : Rat, unrescale L (rescale L v) = v ∧ unrescale W (rescale W v) = v) := by
  refine ⟨⟨L, -(L / 2), hL, fun v => by rw [rescale]; ring⟩,
    fun r => ⟨rfl, rfl, rfl, rfl⟩, fun v => ⟨?_, ?_⟩⟩
  · rw [rescale, unrescale]
    field_simp
  · rw [rescale, unrescale]
    field_simp

/-- C3 witness: on a 105 by 68 pitch, concrete coordinates rescale and
come back. -/
theorem c3_rescale_affine_invertible_witness :
    (rescaleRow (105, 68) sampleRow).start_x = sampleRow.start_x * 105 - 105 / 2 ∧
    unrescale 105 (rescale 105 (1/2)) = 1/2 ∧
    unrescale 68 (rescale 68 (1/3)) = 1/3 := by
  have h := c3_rescale_affine_invertible 105 68 (by norm_num) (by norm_num)
  exact ⟨(h.2.1 sampleRow).1, (h.2.2 (1/2)).1, (h.2.2 (1/3)).2⟩

/-- C5: every event row's datetime is the period-1 start datetime plus
`(td_frame - first_frame) / frame_rate` seconds, where `first_frame` and
the start time come from the first period-1 row of the metadata. -/
theorem c5_event_datetime (md : Metadata) (r : EventRow) (p : PeriodRow)
    (hp : md.periods_frames.find? (fun q => q.period_id == 1) = some p) :
    (addDatetimeRow md r).datetime =
      some (p.start_datetime_ed + (r.td_frame - p.start_frame) / md.frame_rate) := by
  simp only [addDatetimeRow, eventDatetime, hp]
  rw [mul_div_cancel_right₀]
  norm_num

/-- C5 witness: with period 1 starting at frame 50 and time 1000 at 25
frames per second, an event at frame 100 is stamped 1002. -/
theorem c5_event_datetime_witness :
    (addDatetimeRow sampleMetadata sampleRow).datetime = some 1002 := by
  have h := c5_event_datetime sampleMetadata sampleRow
    { period_id := 1, start_frame := 50, start_datetime_ed := 1000 } rfl
  rw [h]
  norm_num [sampleRow, sampleMetadata, assignDataballpyEvent, buildRow, evPass1]

/-- C7: a null `to` field yields the sentinel `to_player_id` and a null
`to_player_name`; every non-shot record's outcome is initialized to the
sentinel `MISSING_INT`; and an event object missing a required key (here
`index`) makes `_get_event_data` fail with a lookup error. -/
theorem c7_sentinels_and_lookup_failure :
    (∀ ev : RawEvent, ev.toPlayer = none →
        (buildRow ev).to_player_id = MISSING_INT ∧
        (buildRow ev).to_player_name = none)
    ∧ (∀ ev : RawEvent, strLower ev.typeName ≠ "shot" →
        (buildRow ev).outcome = MISSING_INT)
    ∧ (∀ fields : List (String × Json),
        fields.find? (fun p => p.1 == "index") = none →
        isError (parseRawEvent (Json.obj fields)) = true) := by
  refine ⟨?_, ?_, ?_⟩
  · intro ev h
    constructor <;> simp [buildRow, h]
  · intro ev h
    simp [buildRow, h]
  · intro fields h
    have h1 : (Json.obj fields).getField "index"
        = Except.error ("key not found: " ++ "index") := by
      simp [Json.getField, h]
    rw [parseRawEvent, h1]
    rfl

/-- C7 witness: the record without a receiver gets the sentinel id and a
null name, a pass is initialized to the sentinel outcome, and an empty
event object is rejected with a lookup failure. -/
theorem c7_sentinels_and_lookup_failure_witness :
    (buildRow evBallLost1).to_player_id = MISSING_INT ∧
    (buildRow evBallLost1).to_player_name = none ∧
    (buildRow evPass1).outcome = MISSING_INT ∧
    isError (parseRawEvent (Json.obj [])) = true :=
  ⟨(c7_sentinels_and_lookup_failure.1 evBallLost1 rfl).1,
   (c7_sentinels_and_lookup_failure.1 evBallLost1 rfl).2,
   c7_sentinels_and_lookup_failure.2.1 evPass1 (by decide),
   c7_sentinels_and_lookup_failure.2.2 [] rfl⟩

/-- C10: a dribble row whose outcome still holds the sentinel
`MISSING_INT` is built into a `DribbleEvent` with `outcome = true`
(`bool()` of the nonzero sentinel), indistinguishable from a successful
dribble. -/
theorem c10_sentinel_dribble_truthy (r : EventRow) (pitch : Rat × Rat)
    (home : Rat) (hd : r.databallpy_event = some "dribble")
    (h : r.outcome = MISSING_INT) :
    (getDribbleEvent pitch home r).outcome = true ∧
    (getDribbleEvent pitch home r).outcome =
      (getDribbleEvent pitch home { r with outcome := 1 }).outcome := by
  constructor <;> simp [getDribbleEvent, pyBool, h, MISSING_INT]

/-- C10 witness: the table of a stream consisting of one carry has a
dribble row with the sentinel outcome, and its `DribbleEvent` reads back
as successful. -/
theorem c10_sentinel_dribble_truthy_witness :
    (getDribbleEvent (105, 68) 100
      (assignDataballpyEvent (buildRow evCarry1))).outcome = true :=
  (c10_sentinel_dribble_truthy (assignDataballpyEvent (buildRow evCarry1))
    (105, 68) 100 (by decide) (by decide)).1

/-- Evaluation of `_get_shot_event` once the outcome index has been
resolved. -/
theorem getShotEvent_eq (pitch : Rat × Rat) (home : Rat) (r : EventRow)
    (so : String) (hso : pyListGet ["miss", "goal"] r.outcome = some so) :
    getShotEvent pitch home r = some
      { event_id := r.event_id
        period_id := r.period_id
        minutes := r.minutes
        seconds := r.seconds
        datetime := r.datetime
        start_x := r.start_x
        start_y := r.start_y
        team_id := r.team_id
        pitch_size := pitch
        team_side := if r.team_id == home then "home" else "away"
        _xt := -1
        player_id := r.player_id
        shot_outcome := so
        y_target := none
        z_target := none
        body_part := none
        type_of_play := none
        first_touch := none
        created_oppertunity := none
        related_event_id := MISSING_INT } := by
  unfold getShotEvent
  rw [hso]

/-- Evaluation of `_get_pass_event` once the outcome index has been
resolved. -/
theorem getPassEvent_eq (pitch : Rat × Rat) (home : Rat) (r : EventRow)
    (oc : String)
    (hoc : pyListGet ["unsuccessful", "successful"] r.outcome = some oc) :
    getPassEvent pitch home r = some
      { event_id := r.event_id
        period_id := r.period_id
        minutes := r.minutes
        seconds := r.seconds
        datetime := r.datetime
        start_x := r.start_x
        start_y := r.start_y
        team_id := r.team_id
        pitch_size := pitch
        team_side := if r.team_id == home then "home" else "away"
        _xt := -1
        player_id := r.player_id
        outcome := oc
        end_x := r.end_x
        end_y := r.end_y
        pass_type := "not_specified"
        set_piece := "unspecified_set_piece" } := by
  unfold getPassEvent
  rw [hoc]

/-- C4 counterexample: a stream consisting of a single carry yields a
dribble-category row whose outcome is the sentinel `-999`; the
`DribbleEvent` built from it reads back `outcome = true`, the encoding of
a successful (outcome 1) dribble, so the row's outcome value is not
reproduced. -/
theorem c4_round_trip_counterexample :
    ∃ r, getEventDataRows [evCarry1] = [r] ∧
      r.databallpy_event = some "dribble" ∧
      r.outcome = MISSING_INT ∧
      (getDribbleEvent (105, 68) 100 r).outcome = true ∧
      r.outcome ≠ 1 ∧ r.outcome ≠ 0 := by
  exact ⟨assignDataballpyEvent (buildRow evCarry1),
    rfl, by decide, by decide, by decide, by decide, by decide⟩

/-- C4 (amended): for every row whose outcome is 0 or 1, the typed shot,
pass and dribble events built from it reproduce `event_id`, `period_id`,
`minutes`, `seconds`, `datetime`, `start_x`, `start_y`, `team_id` and
`player_id` exactly, and reproduce the outcome through each type's
documented encoding (`goal`/`miss`, `successful`/`unsuccessful`,
`true`/`false`). -/
theorem c4_round_trip (pitch : Rat × Rat) (home : Rat) (r : EventRow)
    (h01 : r.outcome = 0 ∨ r.outcome = 1) :
    (∃ s, getShotEvent pitch home r = some s ∧
      s.event_id = r.event_id ∧ s.period_id = r.period_id ∧
      s.minutes = r.minutes ∧ s.seconds = r.seconds ∧
      s.datetime = r.datetime ∧ s.start_x = r.start_x ∧
      s.start_y = r.start_y ∧ s.team_id = r.team_id ∧
      s.player_id = r.player_id ∧
      (s.shot_outcome = "goal" ↔ r.outcome = 1) ∧
      (s.shot_outcome = "miss" ↔ r.outcome = 0))
    ∧ (∃ p, getPassEvent pitch home r = some p ∧
      p.event_id = r.event_id ∧ p.period_id = r.period_id ∧
      p.minutes = r.minutes ∧ p.seconds = r.seconds ∧
      p.datetime = r.datetime ∧ p.start_x = r.start_x ∧
      p.start_y = r.start_y ∧ p.team_id = r.team_id ∧
      p.player_id = r.player_id ∧
      (p.outcome = "successful" ↔ r.outcome = 1) ∧
      (p.outcome = "unsuccessful" ↔ r.outcome = 0))
    ∧ ((getDribbleEvent pitch home r).event_id = r.event_id ∧
      (getDribbleEvent pitch home r).period_id = r.period_id ∧
      (getDribbleEvent pitch home r).minutes = r.minutes ∧
      (getDribbleEvent pitch home r).seconds = r.seconds ∧
      (getDribbleEvent pitch home r).datetime = r.datetime ∧
      (getDribbleEvent pitch home r).start_x = r.start_x ∧
      (getDribbleEvent pitch home r).start_y = r.start_y ∧
      (getDribbleEvent pitch home r).team_id = r.team_id ∧
      (getDribbleEvent pitch home r).player_id = r.player_id ∧
      ((getDribbleEvent pitch home r).outcome = true ↔ r.outcome = 1) ∧
      ((getDribbleEvent pitch home r).outcome = false ↔ r.outcome = 0)) := by
  rcases h01 with h | h
  · have hshot : pyListGet ["miss", "goal"] r.outcome = some "miss" := by
      rw [h]; rfl
    have hpass : pyListGet ["unsuccessful", "successful"] r.outcome
        = some "unsuccessful" := by
      rw [h]; rfl
    refine ⟨⟨_, getShotEvent_eq pitch home r "miss" hshot,
        rfl, rfl, rfl, rfl, rfl, rfl, rfl, rfl, rfl, ?_, ?_⟩,
      ⟨_, getPassEvent_eq pitch home r "unsuccessful" hpass,
        rfl, rfl, rfl, rfl, rfl, rfl, rfl, rfl, rfl, ?_, ?_⟩,
      rfl, rfl, rfl, rfl, rfl, rfl, rfl, rfl, rfl, ?_, ?_⟩ <;>
      simp [getDribbleEvent, pyBool, h]
  · have hshot : pyListGet ["miss", "goal"] r.outcome = some "goal" := by
      rw [h]; rfl
    have hpass : pyListGet ["unsuccessful", "successful"] r.outcome
        = some "successful" := by
      rw [h]; rfl
    refine ⟨⟨_, getShotEvent_eq pitch home r "goal" hshot,
        rfl, rfl, rfl, rfl, rfl, rfl, rfl, rfl, rfl, ?_, ?_⟩,
      ⟨_, getPassEvent_eq pitch home r "successful" hpass,
        rfl, rfl, rfl, rfl, rfl, rfl, rfl, rfl, rfl, ?_, ?_⟩,
      rfl, rfl, rfl, rfl, rfl, rfl, rfl, rfl, rfl, ?_, ?_⟩ <;>
      simp [getDribbleEvent, pyBool, h]

/-- C4 witness: the round trip on a concrete successful row. -/
theorem c4_round_trip_witness :
    sampleRow.outcome = 1 ∧
    ((getDribbleEvent (105, 68) 100 sampleRow).outcome = true ↔
      sampleRow.outcome = 1) ∧
    ∃ s, getShotEvent (105, 68) 100 sampleRow = some s ∧
      s.event_id = sampleRow.event_id := by
  have h := c4_round_trip (105, 68) 100 sampleRow (Or.inr rfl)
  obtain ⟨⟨s, hs, hsid, -, -, -, -, -, -, -, -, -, -⟩, -, hdr⟩ := h
  obtain ⟨-, -, -, -, -, -, -, -, -, hout, -⟩ := hdr
  exact ⟨rfl, hout, s, hs, hsid⟩

/-- C8 counterexample: an in-memory file object input is not accepted —
`load_metrica_event_data` raises a `TypeError` for every non-`str`
event-data input, file objects included. -/
theorem c8_input_validation_counterexample :
    checkEventDataLoc [] (LoadInput.stringIO "json event data") "meta.xml" =
      LoadCheck.typeError
        "tracking_data_loc must be either a str or a StringIO object" ∧
    checkEventDataLoc [] (LoadInput.stringIO "json event data") "meta.xml" ≠
      LoadCheck.ok := by
  exact ⟨rfl, by decide⟩

/-- C8 (amended): a non-`str` event-data input — a file object included —
raises a `TypeError`; a brace-free path whose event-data or metadata file
does not exist raises a `FileNotFoundError` naming the missing file; a
`str` containing a brace is accepted as the in-memory JSON document, as
is a brace-free path when both files exist.  Nothing is retried: the
check is a single deterministic decision. -/
theorem c8_input_validation (fs : List String) (s mdLoc : String) :
    (checkEventDataLoc fs (LoadInput.stringIO s) mdLoc =
        LoadCheck.typeError
          "tracking_data_loc must be either a str or a StringIO object")
    ∧ (checkEventDataLoc fs LoadInput.otherObj mdLoc =
        LoadCheck.typeError
          "tracking_data_loc must be either a str or a StringIO object")
    ∧ (hasBrace s = false → s ∉ fs →
        checkEventDataLoc fs (LoadInput.str s) mdLoc =
          LoadCheck.fileNotFound ("Could not find " ++ s))
    ∧ (hasBrace s = false → s ∈ fs → mdLoc ∉ fs →
        checkEventDataLoc fs (LoadInput.str s) mdLoc =
          LoadCheck.fileNotFound ("Could not find " ++ mdLoc))
    ∧ (hasBrace s = true →
        checkEventDataLoc fs (LoadInput.str s) mdLoc = LoadCheck.ok)
    ∧ (hasBrace s = false → s ∈ fs → mdLoc ∈ fs →
        checkEventDataLoc fs (LoadInput.str s) mdLoc = LoadCheck.ok) := by
  refine ⟨rfl, rfl, ?_, ?_, ?_, ?_⟩
  · intro h1 h2
    simp [checkEventDataLoc, h1, h2]
  · intro h1 h2 h3
    simp [checkEventDataLoc, h1, h2, h3]
  · intro h1
    simp [checkEventDataLoc, h1]
  · intro h1 h2 h3
    simp [checkEventDataLoc, h1, h2, h3]

/-- C8 witness: concrete inputs for each branch — a non-`str` object, an
existing path pair, a missing event-data file, and an in-memory JSON
string. -/
theorem c8_input_validation_witness :
    checkEventDataLoc [] LoadInput.otherObj "md.xml" =
      LoadCheck.typeError
        "tracking_data_loc must be either a str or a StringIO object" ∧
    checkEventDataLoc ["ed.json", "md.xml"] (LoadInput.str "ed.json") "md.xml" =
      LoadCheck.ok ∧
    checkEventDataLoc [] (LoadInput.str "nope.json") "md.xml" =
      LoadCheck.fileNotFound ("Could not find " ++ "nope.json") ∧
    checkEventDataLoc [] (LoadInput.str "raw \x7b json \x7d data") "md.xml" =
      LoadCheck.ok :=
  ⟨(c8_input_validation [] "x" "md.xml").2.1,
   (c8_input_validation ["ed.json", "md.xml"] "ed.json" "md.xml").2.2.2.2.2
     (by decide) (by decide) (by decide),
   (c8_input_validation [] "nope.json" "md.xml").2.2.1 (by decide) (by decide),
   (c8_input_validation [] "raw \x7b json \x7d data" "md.xml").2.2.2.2.1
     (by decide)⟩

end Databallpy
